import Mathlib

/-!
Shallow embedding of the BookVerse recommendations service core
(`app/algorithms.py`, `app/indexer.py`, `app/api.py`, `app/settings.py`)
and verification of the specification claims about it.

Python dictionaries are embedded as association lists built by an
insert-or-update operation (`dinsert`), Python sets of strings as
duplicate-free lists built by `sadd`, floats as rationals, and the
fallible HTTP fetches of the inventory client as `Except` values.
-/

namespace BookVerse

/-- Availability info mirrored from inventory responses (`schemas.Availability`). -/
structure Availability where
  quantity_available : Nat
  in_stock : Bool
  low_stock : Bool
deriving DecidableEq, Repr

/-- Minimal book representation used in recommendations (`schemas.BookLite`). -/
structure BookLite where
  id : String
  title : String
  authors : List String
  genres : List String
  price : ℚ
  cover_image_url : String
  availability : Availability
deriving DecidableEq, Repr

/-- A transaction record as consumed by the indexer: a type tag, a book id and
an optional signed quantity change (`tx.get("quantity_change", -1)` treats a
missing field via a default). -/
structure Tx where
  transaction_type : String
  book_id : String
  quantity_change : Option Int
deriving DecidableEq, Repr

/-- A raw catalog item as returned by the inventory client; availability may be
absent (`"availability" in item` check in `Indexer.rebuild`). -/
structure BookPayload where
  id : String
  title : String
  authors : List String
  genres : List String
  price : ℚ
  cover_image_url : String
  availability : Option Availability
deriving DecidableEq, Repr

/-- The configuration slice consulted by `score_simple`: the three scoring
weights (`settings.get_weights`) and the out-of-stock filter flag
(`settings.filter_out_of_stock_enabled`). -/
structure ScoreConfig where
  w_genre : ℚ
  w_author : ℚ
  w_popularity : ℚ
  filter_out_of_stock : Bool
deriving DecidableEq, Repr

/-- Default configuration values from `settings.WeightsConfig`
(genre 1.0, author 0.25, popularity 0.10) and `settings.FeaturesConfig`
(filter_out_of_stock True). -/
def defaultScoreConfig : ScoreConfig :=
  { w_genre := 1, w_author := 1/4, w_popularity := 1/10, filter_out_of_stock := true }

/-- A recommendation response entry (`schemas.RecommendationItem`); the factor
breakdown is a dict, since the trending fallback populates only a
`popularity` key. -/
structure RecommendationItem where
  id : String
  title : String
  authors : List String
  genres : List String
  price : ℚ
  cover_image_url : String
  availability : Availability
  score : ℚ
  score_factors : List (String × ℚ)
deriving DecidableEq, Repr

/-- Python-dict insert-or-update: replaces the value at an existing key in
place, otherwise appends the new binding. -/
def dinsert {α : Type} (m : List (String × α)) (k : String) (v : α) : List (String × α) :=
  match m with
  | [] => [(k, v)]
  | (k', v') :: rest => if k' == k then (k, v) :: rest else (k', v') :: dinsert rest k v

/-- Python-set element insertion on a duplicate-free list. -/
def sadd (s : List String) (x : String) : List String :=
  if x ∈ s then s else s ++ [x]

/-- Python-set union (`acc |= s`): add every element of `s` to `acc`. -/
def unionAdd (acc s : List String) : List String :=
  s.foldl sadd acc

/-- Seed genre set: `set(g for b in seed_books for g in b.genres)`. -/
def seedGenres (seed_books : List BookLite) : Finset String :=
  seed_books.foldr (fun b acc => b.genres.toFinset ∪ acc) ∅

/-- Seed author set: `set(a for b in seed_books for a in b.authors)`. -/
def seedAuthors (seed_books : List BookLite) : Finset String :=
  seed_books.foldr (fun b acc => b.authors.toFinset ∪ acc) ∅

/-- `algorithms.score_simple`: weighted linear score of a candidate against the
seed genre/author sets and the popularity map, with the out-of-stock
short-circuit. -/
def score_simple (cfg : ScoreConfig) (seed_books : List BookLite) (candidate : BookLite)
    (popularity : List (String × ℚ)) : ℚ × List (String × ℚ) :=
  if cfg.filter_out_of_stock && !candidate.availability.in_stock then
    (0, [("genre", 0), ("author", 0), ("popularity", 0)])
  else
    let genre_overlap : ℕ := (seedGenres seed_books ∩ candidate.genres.toFinset).card
    let author_overlap : ℕ := (seedAuthors seed_books ∩ candidate.authors.toFinset).card
    let pop : ℚ := (popularity.lookup candidate.id).getD 0
    (cfg.w_genre * genre_overlap + cfg.w_author * author_overlap + cfg.w_popularity * pop,
      [("genre", (genre_overlap : ℚ)), ("author", (author_overlap : ℚ)), ("popularity", pop)])

/-- `algorithms.build_recommendation_item`. -/
def buildRecommendationItem (b : BookLite) (score : ℚ) (factors : List (String × ℚ)) :
    RecommendationItem :=
  { id := b.id, title := b.title, authors := b.authors, genres := b.genres,
    price := b.price, cover_image_url := b.cover_image_url,
    availability := b.availability, score := score, score_factors := factors }

/-! ### Popularity aggregation (`Indexer.rebuild`, lines 66-79) -/

/-- One iteration of the popularity-counting loop body: only `stock_out`
records count; each adds `abs(int(tx.get("quantity_change", -1)))` to its
book's running total. -/
def soStep (m : List (String × ℕ)) (tx : Tx) : List (String × ℕ) :=
  if tx.transaction_type == "stock_out" then
    dinsert m tx.book_id
      (((m.lookup tx.book_id).getD 0) + (tx.quantity_change.getD (-1)).natAbs)
  else m

/-- Raw outbound counts over a transaction list (`stock_out_counts`). -/
def stockOutCounts (txs : List Tx) : List (String × ℕ) :=
  txs.foldl soStep []

/-- `max(stock_out_counts.values())` over the association list (0 on empty). -/
def listMaxNat (m : List (String × ℕ)) : ℕ :=
  m.foldr (fun p acc => max p.2 acc) 0

/-- Normalized popularity: each raw count divided by
`max(stock_out_counts.values()) or 1`; empty when there are no counts. -/
def popularityOf (txs : List Tx) : List (String × ℚ) :=
  let counts := stockOutCounts txs
  if counts.isEmpty then []
  else
    let maxCount : ℕ := if listMaxNat counts = 0 then 1 else listMaxNat counts
    counts.map (fun p => (p.1, (p.2 : ℚ) / (maxCount : ℚ)))

/-! ### Catalog indices and the TTL freshness policy (`Indexer`) -/

/-- `indexer.CatalogIndices`: in-memory indices for candidate search. -/
structure CatalogIndices where
  book_by_id : List (String × BookLite)
  genre_to_book_ids : List (String × List String)
  author_to_book_ids : List (String × List String)
  popularity : List (String × ℚ)
  last_built_at : ℚ
deriving DecidableEq, Repr

/-- Fresh `CatalogIndices()`: empty maps and `last_built_at = 0.0`. -/
def CatalogIndices.initial : CatalogIndices :=
  { book_by_id := [], genre_to_book_ids := [], author_to_book_ids := [],
    popularity := [], last_built_at := 0 }

/-- Conversion of a raw payload item to a `BookLite`; absent availability
defaults to quantity 0, not in stock, low-stock. -/
def toBookLite (item : BookPayload) : BookLite :=
  { id := item.id, title := item.title, authors := item.authors, genres := item.genres,
    price := item.price, cover_image_url := item.cover_image_url,
    availability := item.availability.getD
      { quantity_available := 0, in_stock := false, low_stock := true } }

/-- `setdefault(k, set()).add(v)` on a genre/author index. -/
def addToIndex (m : List (String × List String)) (k v : String) : List (String × List String) :=
  dinsert m k (sadd ((m.lookup k).getD []) v)

/-- One iteration of the index-building loop body in `Indexer.rebuild`. -/
def registerBook (acc : List (String × BookLite) × List (String × List String) ×
    List (String × List String)) (item : BookPayload) :
    List (String × BookLite) × List (String × List String) × List (String × List String) :=
  let book := toBookLite item
  let book_by_id := dinsert acc.1 book.id book
  let genre_to_book_ids := book.genres.foldl (fun m g => addToIndex m g book.id) acc.2.1
  let author_to_book_ids := book.authors.foldl (fun m a => addToIndex m a book.id) acc.2.2
  (book_by_id, genre_to_book_ids, author_to_book_ids)

/-- The pure part of `Indexer.rebuild`: build all indices from one catalog
fetch and one transaction fetch, stamping `last_built_at` with the current
time. -/
def buildIndices (books : List BookPayload) (txs : List Tx) (now : ℚ) : CatalogIndices :=
  let built := books.foldl registerBook ([], [], [])
  { book_by_id := built.1, genre_to_book_ids := built.2.1, author_to_book_ids := built.2.2,
    popularity := popularityOf txs, last_built_at := now }

/-- The inventory client at the interface boundary: each fetch either yields a
payload or raises. -/
structure Client where
  listBooks : Except String (List BookPayload)
  listTransactions : Except String (List Tx)

/-- Indexer state plus invocation counters for the two fetch sources. -/
structure IndexerState where
  indices : CatalogIndices
  booksFetches : ℕ
  txFetches : ℕ
deriving DecidableEq, Repr

/-- Process-start state: fresh `CatalogIndices`, no fetches performed. -/
def IndexerState.initial : IndexerState :=
  { indices := CatalogIndices.initial, booksFetches := 0, txFetches := 0 }

/-- `Indexer.rebuild`: fetch books, then transactions; on either failure the
error propagates and `self.indices` is left untouched (the assignments happen
only after both fetches succeed). -/
def rebuild (c : Client) (now : ℚ) (s : IndexerState) : IndexerState × Option String :=
  let s1 := { s with booksFetches := s.booksFetches + 1 }
  match c.listBooks with
  | .error e => (s1, some e)
  | .ok books =>
    let s2 := { s1 with txFetches := s1.txFetches + 1 }
    match c.listTransactions with
    | .error e => (s2, some e)
    | .ok txs => ({ s2 with indices := buildIndices books txs now }, none)

/-- `Indexer._is_stale`: always stale when the TTL is ≤ 0, otherwise stale
when the snapshot age exceeds the TTL. -/
def isStale (ttl : Int) (now lastBuilt : ℚ) : Bool :=
  if ttl ≤ 0 then true else decide ((now - lastBuilt) > (ttl : ℚ))

/-- `Indexer.ensure_indices`: rebuild when `book_by_id` is empty (falsy) or
the snapshot is stale, else serve the current snapshot directly. -/
def ensureIndices (c : Client) (ttl : Int) (now : ℚ) (s : IndexerState) :
    IndexerState × Option String :=
  if s.indices.book_by_id.isEmpty || isStale ttl now s.indices.last_built_at then
    rebuild c now s
  else (s, none)

/-- `N` consecutive `ensure_indices` calls at a fixed clock reading. -/
def iterEnsure (c : Client) (ttl : Int) (now : ℚ) : ℕ → IndexerState → IndexerState
  | 0, s => s
  | n + 1, s => iterEnsure c ttl now n (ensureIndices c ttl now s).1

/-! ### Candidate generation and ranking (`api.get_similar`, `api.get_personalized`) -/

/-- Gather candidate ids for one seed book: union the genre-index entries of
its genres and the author-index entries of its authors into the accumulator. -/
def collectIds (idx : CatalogIndices) (sb : BookLite) (acc : List String) : List String :=
  sb.authors.foldl (fun a au => unionAdd a ((idx.author_to_book_ids.lookup au).getD []))
    (sb.genres.foldl (fun a g => unionAdd a ((idx.genre_to_book_ids.lookup g).getD [])) acc)

/-- Candidate ids from a list of seed books: the union over all seeds of the
index entries for their genres and authors, minus the seed ids themselves
(`candidate_ids.discard(book_id)` / `candidate_ids.difference_update(...)`). -/
def candidateIdsFromSeeds (idx : CatalogIndices) (seed_books : List BookLite) : List String :=
  (seed_books.foldl (fun acc sb => collectIds idx sb acc) []).filter
    (fun i => decide (i ∉ seed_books.map (fun b => b.id)))

/-- Descending-score order on recommendation items (`sorted(..., key=lambda r:
r.score, reverse=True)`). -/
def scoreGe (a b : RecommendationItem) : Prop := b.score ≤ a.score

instance : DecidableRel scoreGe :=
  fun a b => inferInstanceAs (Decidable (b.score ≤ a.score))

instance : IsTotal RecommendationItem scoreGe :=
  ⟨fun a b => le_total b.score a.score⟩

instance : IsTrans RecommendationItem scoreGe :=
  ⟨fun _ _ _ h1 h2 => le_trans h2 h1⟩

/-- Score one candidate id; it is skipped when it cannot be resolved or its
score is ≤ 0 (`if s <= 0: continue`). -/
def scoreCandidate (cfg : ScoreConfig) (seed_books : List BookLite) (idx : CatalogIndices)
    (cid : String) : Option RecommendationItem :=
  match idx.book_by_id.lookup cid with
  | none => none
  | some b =>
    let sf := score_simple cfg seed_books b idx.popularity
    if sf.1 ≤ 0 then none else some (buildRecommendationItem b sf.1 sf.2)

/-- Shared tail of both recommendation endpoints: score every candidate,
drop scores ≤ 0, sort descending by score, truncate to the limit. -/
def scoreAndRank (cfg : ScoreConfig) (seed_books : List BookLite) (idx : CatalogIndices)
    (cids : List String) (limit : ℕ) : List RecommendationItem :=
  ((cids.filterMap (scoreCandidate cfg seed_books idx)).insertionSort scoreGe).take limit

/-- `api.get_similar`: resolve the seed (404 when absent, embedded as `none`),
gather candidates from its genres and authors minus the seed itself, then
score and rank. -/
def getSimilar (cfg : ScoreConfig) (idx : CatalogIndices) (book_id : String) (limit : ℕ) :
    Option (List RecommendationItem) :=
  match idx.book_by_id.lookup book_id with
  | none => none
  | some seed => some (scoreAndRank cfg [seed] idx (candidateIdsFromSeeds idx [seed]) limit)

/-- `schemas.PersonalizedRequest` (absent optional lists embedded as `[]`). -/
structure PersonalizedRequest where
  seed_book_ids : List String
  recently_viewed : List String
  cart_book_ids : List String
  seed_genres : List String
  seed_authors : List String
  limit : Option ℕ
deriving DecidableEq, Repr

/-- Concatenated seed id lists of a personalized request. -/
def personalSeeds (p : PersonalizedRequest) : List String :=
  p.seed_book_ids ++ p.recently_viewed ++ p.cart_book_ids

/-- `[idx.book_by_id[s] for s in seeds if s in idx.book_by_id]`. -/
def personalSeedBooks (idx : CatalogIndices) (p : PersonalizedRequest) : List BookLite :=
  (personalSeeds p).filterMap (fun s => idx.book_by_id.lookup s)

/-- Feature candidates for seed-attribute mode: the union of the genre-index
entries of the given genres with the author-index entries of the given
authors. -/
def featureCandidates (idx : CatalogIndices) (genres authors : List String) : List String :=
  authors.foldl (fun acc an => unionAdd acc ((idx.author_to_book_ids.lookup an).getD []))
    (genres.foldl (fun acc gn => unionAdd acc ((idx.genre_to_book_ids.lookup gn).getD [])) [])

/-- Pseudo seed books in seed-attribute mode:
`[idx.book_by_id[i] for i in list(feature_candidates)[:3] if i in idx.book_by_id]`. -/
def pseudoSeedBooks (idx : CatalogIndices) (genres authors : List String) : List BookLite :=
  ((featureCandidates idx genres authors).take 3).filterMap
    (fun i => idx.book_by_id.lookup i)

/-- Popularity of an item id, absent meaning 0 (`idx.popularity.get(i, 0.0)`). -/
def popOf (idx : CatalogIndices) (i : String) : ℚ :=
  (idx.popularity.lookup i).getD 0

/-- Descending-popularity order on item ids used by the trending fallback. -/
def popGe (idx : CatalogIndices) (i j : String) : Prop := popOf idx j ≤ popOf idx i

instance (idx : CatalogIndices) : DecidableRel (popGe idx) :=
  fun i j => inferInstanceAs (Decidable (popOf idx j ≤ popOf idx i))

instance (idx : CatalogIndices) : IsTotal String (popGe idx) :=
  ⟨fun i j => le_total (popOf idx j) (popOf idx i)⟩

instance (idx : CatalogIndices) : IsTrans String (popGe idx) :=
  ⟨fun _ _ _ h1 h2 => le_trans h2 h1⟩

/-- Trending fallback of `get_personalized`: all catalog ids sorted by
popularity descending, truncated to the limit, then restricted to in-stock
books, each scored by its popularity with a popularity-only factor dict. -/
def trendingFallback (idx : CatalogIndices) (limit : ℕ) : List RecommendationItem :=
  (((idx.book_by_id.map Prod.fst).insertionSort (popGe idx)).take limit).filterMap (fun i =>
    (idx.book_by_id.lookup i).bind (fun b =>
      if b.availability.in_stock then
        some (buildRecommendationItem b (popOf idx i) [("popularity", popOf idx i)])
      else none))

/-- `api.get_personalized`: resolve seed books from the request ids; when none
resolve, try feature candidates from the given genre/author names (taking up
to three of them as pseudo seeds); when those are also empty, fall back to
trending by popularity. -/
def getPersonalized (cfg : ScoreConfig) (idx : CatalogIndices) (p : PersonalizedRequest) :
    List RecommendationItem :=
  if (personalSeedBooks idx p).isEmpty then
    if (featureCandidates idx p.seed_genres p.seed_authors).isEmpty then
      trendingFallback idx (p.limit.getD 10)
    else
      scoreAndRank cfg (pseudoSeedBooks idx p.seed_genres p.seed_authors) idx
        (candidateIdsFromSeeds idx (pseudoSeedBooks idx p.seed_genres p.seed_authors))
        (p.limit.getD 10)
  else
    scoreAndRank cfg (personalSeedBooks idx p) idx
      (candidateIdsFromSeeds idx (personalSeedBooks idx p)) (p.limit.getD 10)

/-! ### Health endpoint (`api.recommendations_health`) -/

/-- The stale flag reported by the health endpoint:
`stale = ttl > 0 and (now - last_built) > ttl`. -/
def healthStale (ttl : Int) (now lastBuilt : ℚ) : Bool :=
  decide (ttl > 0) && decide ((now - lastBuilt) > (ttl : ℚ))

/-- The `indices` block of the health check: entry counts of the four maps. -/
structure HealthIndices where
  books : ℕ
  genres : ℕ
  authors : ℕ
  popularity : ℕ
deriving DecidableEq, Repr

/-- Counts reported by the health endpoint. -/
def healthIndicesOf (idx : CatalogIndices) : HealthIndices :=
  { books := idx.book_by_id.length, genres := idx.genre_to_book_ids.length,
    authors := idx.author_to_book_ids.length, popularity := idx.popularity.length }

/-- Truncation toward zero of a rational, as Python's `int()` applied to a
float. -/
def ratTrunc (q : ℚ) : Int :=
  if q < 0 then -(Int.floor (-q)) else Int.floor q

/-- The `cache` block of the health check. -/
structure HealthCache where
  ttl_seconds : Int
  stale : Bool
  age_seconds : Option Int
deriving DecidableEq, Repr

/-- The cache health fields reported by the endpoint: the TTL it read, the
stale flag, and `age_seconds = int(now - last_built) if last_built else
None` (a never-built snapshot has `last_built_at` 0.0, which is falsy). -/
def healthCacheOf (ttl : Int) (now lastBuilt : ℚ) : HealthCache :=
  { ttl_seconds := ttl,
    stale := healthStale ttl now lastBuilt,
    age_seconds := if lastBuilt = 0 then none else some (ratTrunc (now - lastBuilt)) }

/-! ### Concrete fixtures used by example claims, witnesses and counterexamples -/

/-- An in-stock availability record. -/
def avIn : Availability := ⟨5, true, false⟩

/-- An out-of-stock availability record. -/
def avOut : Availability := ⟨0, false, true⟩

/-- Seed item of the spec's scoring example: genres {Fiction, Mystery},
authors {Alice}. -/
def seedBook : BookLite :=
  ⟨"s", "Seed", ["Alice"], ["Fiction", "Mystery"], 10, "http://x", avIn⟩

/-- Candidate A of the spec's scoring example: shares both genres and the
author with the seed. -/
def candA : BookLite :=
  ⟨"a", "A", ["Alice"], ["Fiction", "Mystery"], 10, "http://x", avIn⟩

/-- Candidate B of the spec's scoring example: shares only genre Fiction. -/
def candB : BookLite :=
  ⟨"b", "B", ["Bob"], ["Fiction"], 10, "http://x", avIn⟩

/-- An out-of-stock candidate with full overlap and nonzero popularity. -/
def candOut : BookLite :=
  ⟨"o", "Out", ["Alice"], ["Fiction", "Mystery"], 10, "http://x", avOut⟩

/-! ### C1: out-of-stock exclusion short-circuit in the scorer -/

/-- C1: whenever the out-of-stock exclusion policy is enabled and the
candidate is not in stock, `score_simple` returns score 0 and an all-zero
factor breakdown, regardless of seeds, overlap or popularity. -/
theorem claim_C1 (cfg : ScoreConfig) (seed_books : List BookLite) (candidate : BookLite)
    (popularity : List (String × ℚ))
    (hf : cfg.filter_out_of_stock = true)
    (hs : candidate.availability.in_stock = false) :
    score_simple cfg seed_books candidate popularity =
      (0, [("genre", 0), ("author", 0), ("popularity", 0)]) := by
  simp [score_simple, hf, hs]

/-- Witness for C1 at a concrete out-of-stock candidate with genre and author
overlap and nonzero popularity. -/
theorem claim_C1_witness :
    defaultScoreConfig.filter_out_of_stock = true ∧
    candOut.availability.in_stock = false ∧
    score_simple defaultScoreConfig [seedBook] candOut [("o", 1)] =
      (0, [("genre", 0), ("author", 0), ("popularity", 0)]) :=
  ⟨rfl, rfl, claim_C1 defaultScoreConfig [seedBook] candOut [("o", 1)] rfl rfl⟩

/-! ### C2: the linear scoring formula and the spec's worked example -/

/-- When the exclusion policy is off or the candidate is in stock,
`score_simple` takes the linear-combination branch. -/
theorem score_simple_pass (cfg : ScoreConfig) (seed_books : List BookLite)
    (candidate : BookLite) (popularity : List (String × ℚ))
    (h : cfg.filter_out_of_stock = false ∨ candidate.availability.in_stock = true) :
    score_simple cfg seed_books candidate popularity =
      (cfg.w_genre * ((seedGenres seed_books ∩ candidate.genres.toFinset).card : ℚ) +
          cfg.w_author * ((seedAuthors seed_books ∩ candidate.authors.toFinset).card : ℚ) +
          cfg.w_popularity * (popularity.lookup candidate.id).getD 0,
        [("genre", ((seedGenres seed_books ∩ candidate.genres.toFinset).card : ℚ)),
          ("author", ((seedAuthors seed_books ∩ candidate.authors.toFinset).card : ℚ)),
          ("popularity", (popularity.lookup candidate.id).getD 0)]) := by
  rcases h with h | h <;> simp [score_simple, h]

/-- Concrete score of the example candidate A against the example seed. -/
theorem scoreA_eq : score_simple defaultScoreConfig [seedBook] candA [] =
    (9/4, [("genre", 2), ("author", 1), ("popularity", 0)]) := by
  have hg : (seedGenres [seedBook] ∩ candA.genres.toFinset).card = 2 := by decide
  have ha : (seedAuthors [seedBook] ∩ candA.authors.toFinset).card = 1 := by decide
  rw [score_simple_pass defaultScoreConfig [seedBook] candA [] (Or.inr rfl), hg, ha]
  norm_num [List.lookup, defaultScoreConfig]

/-- Concrete score of the example candidate B against the example seed. -/
theorem scoreB_eq : score_simple defaultScoreConfig [seedBook] candB [] =
    (1, [("genre", 1), ("author", 0), ("popularity", 0)]) := by
  have hg : (seedGenres [seedBook] ∩ candB.genres.toFinset).card = 1 := by decide
  have ha : (seedAuthors [seedBook] ∩ candB.authors.toFinset).card = 0 := by decide
  rw [score_simple_pass defaultScoreConfig [seedBook] candB [] (Or.inr rfl), hg, ha]
  norm_num [List.lookup, defaultScoreConfig]

/-- C2: when the candidate survives the exclusion check, `score_simple`
computes `w_genre * |genres ∩ seedGenres| + w_author * |authors ∩ seedAuthors|
+ w_popularity * popularity.get(id, 0)` and reports the unweighted
contributions as factors; on the spec's example (default weights, zero
popularity) candidate A scores 2.25 = 9/4, candidate B scores 1, and A ranks
above B. -/
theorem claim_C2 :
    (∀ (cfg : ScoreConfig) (seed_books : List BookLite) (candidate : BookLite)
        (popularity : List (String × ℚ)),
      cfg.filter_out_of_stock = false ∨ candidate.availability.in_stock = true →
      score_simple cfg seed_books candidate popularity =
        (cfg.w_genre * ((seedGenres seed_books ∩ candidate.genres.toFinset).card : ℚ) +
            cfg.w_author * ((seedAuthors seed_books ∩ candidate.authors.toFinset).card : ℚ) +
            cfg.w_popularity * (popularity.lookup candidate.id).getD 0,
          [("genre", ((seedGenres seed_books ∩ candidate.genres.toFinset).card : ℚ)),
            ("author", ((seedAuthors seed_books ∩ candidate.authors.toFinset).card : ℚ)),
            ("popularity", (popularity.lookup candidate.id).getD 0)])) ∧
    score_simple defaultScoreConfig [seedBook] candA [] =
      (9/4, [("genre", 2), ("author", 1), ("popularity", 0)]) ∧
    score_simple defaultScoreConfig [seedBook] candB [] =
      (1, [("genre", 1), ("author", 0), ("popularity", 0)]) ∧
    (score_simple defaultScoreConfig [seedBook] candB []).1 <
      (score_simple defaultScoreConfig [seedBook] candA []).1 := by
  refine ⟨score_simple_pass, scoreA_eq, scoreB_eq, ?_⟩
  rw [scoreA_eq, scoreB_eq]
  norm_num

/-- Witness for C2's general formula at candidate A (in stock, so the
hypothesis holds). -/
theorem claim_C2_witness :
    (defaultScoreConfig.filter_out_of_stock = false ∨ candA.availability.in_stock = true) ∧
    score_simple defaultScoreConfig [seedBook] candA [] =
      (defaultScoreConfig.w_genre * ((seedGenres [seedBook] ∩ candA.genres.toFinset).card : ℚ) +
          defaultScoreConfig.w_author *
            ((seedAuthors [seedBook] ∩ candA.authors.toFinset).card : ℚ) +
          defaultScoreConfig.w_popularity * (List.lookup candA.id ([] : List (String × ℚ))).getD 0,
        [("genre", ((seedGenres [seedBook] ∩ candA.genres.toFinset).card : ℚ)),
          ("author", ((seedAuthors [seedBook] ∩ candA.authors.toFinset).card : ℚ)),
          ("popularity", (List.lookup candA.id ([] : List (String × ℚ))).getD 0)]) :=
  ⟨Or.inr rfl, claim_C2.1 defaultScoreConfig [seedBook] candA [] (Or.inr rfl)⟩

/-! ### C3: popularity normalization -/

/-- Looking a key up after mapping the values maps the looked-up value. -/
theorem lookup_map_value {α β : Type} (f : α → β) (m : List (String × α)) (k : String) :
    (m.map (fun p => (p.1, f p.2))).lookup k = (m.lookup k).map f := by
  induction m with
  | nil => rfl
  | cons p rest ih => cases hk : k == p.1 <;> simp [List.lookup, hk, ih]

/-- A successful lookup exhibits a member of the association list. -/
theorem mem_of_lookup {α : Type} {m : List (String × α)} {k : String} {v : α}
    (h : m.lookup k = some v) : (k, v) ∈ m := by
  induction m with
  | nil => simp at h
  | cons p rest ih =>
    rw [List.lookup] at h
    cases hk : k == p.1 with
    | true =>
      rw [hk] at h
      simp only [Option.some.injEq] at h
      exact List.mem_cons.mpr (Or.inl (Prod.ext_iff.mpr ⟨eq_of_beq hk, h.symm⟩))
    | false =>
      rw [hk] at h
      exact List.mem_cons_of_mem _ (ih h)

/-- Every value in an association list is bounded by `listMaxNat`. -/
theorem le_listMaxNat {m : List (String × ℕ)} {p : String × ℕ} (h : p ∈ m) :
    p.2 ≤ listMaxNat m := by
  induction m with
  | nil => cases h
  | cons q rest ih =>
    rcases List.mem_cons.mp h with h | h
    · simp [listMaxNat, h, le_max_iff]
    · simp only [listMaxNat, List.foldr_cons]
      exact le_max_of_le_right (ih h)

/-- Lookup in the normalized popularity map is the raw lookup divided by the
guarded maximum. -/
theorem popularityOf_lookup (txs : List Tx) (k : String) (h : stockOutCounts txs ≠ []) :
    (popularityOf txs).lookup k = ((stockOutCounts txs).lookup k).map
      (fun (w : ℕ) => (w : ℚ) /
        ((if listMaxNat (stockOutCounts txs) = 0 then 1 else listMaxNat (stockOutCounts txs) :
          ℕ) : ℚ)) := by
  have hne : ¬((stockOutCounts txs).isEmpty = true) := by simpa [List.isEmpty_iff] using h
  simp only [popularityOf, if_neg hne]
  exact lookup_map_value
    (fun (w : ℕ) => (w : ℚ) /
      ((if listMaxNat (stockOutCounts txs) = 0 then 1 else listMaxNat (stockOutCounts txs) :
        ℕ) : ℚ))
    (stockOutCounts txs) k

/-- Example transaction list of the spec: X has outbound quantities 3 and 2,
Y has one outbound record of quantity 5. -/
def exTxs : List Tx :=
  [⟨"stock_out", "X", some 3⟩, ⟨"stock_out", "X", some 2⟩, ⟨"stock_out", "Y", some 5⟩]

/-- A single outbound transaction whose quantity change is zero. -/
def txZero : List Tx := [⟨"stock_out", "X", some 0⟩]

/-- C3 (amended): every normalized popularity value is ≤ 1; an item whose raw
count equals the maximum raw count gets popularity exactly 1 provided that
maximum is positive; on the spec's example the normalized map is
{X ↦ 1, Y ↦ 1}. -/
theorem claim_C3 :
    (∀ (txs : List Tx) (k : String) (v : ℚ),
      (popularityOf txs).lookup k = some v → v ≤ 1) ∧
    (∀ (txs : List Tx) (k : String) (v : ℕ),
      (stockOutCounts txs).lookup k = some v → v = listMaxNat (stockOutCounts txs) →
      0 < v → (popularityOf txs).lookup k = some 1) ∧
    popularityOf exTxs = [("X", 1), ("Y", 1)] := by
  refine ⟨?_, ?_, ?_⟩
  · intro txs k v h
    by_cases hne : stockOutCounts txs = []
    · simp [popularityOf, hne] at h
    · rw [popularityOf_lookup txs k hne] at h
      rcases Option.map_eq_some'.mp h with ⟨w, hw, hfw⟩
      have hle : w ≤ listMaxNat (stockOutCounts txs) := le_listMaxNat (mem_of_lookup hw)
      subst hfw
      by_cases hz : listMaxNat (stockOutCounts txs) = 0
      · rw [if_pos hz]
        have hw0 : w = 0 := by omega
        subst hw0
        norm_num
      · rw [if_neg hz]
        rw [div_le_one (by exact_mod_cast Nat.pos_of_ne_zero hz)]
        exact_mod_cast hle
  · intro txs k v h hv hpos
    have hne : stockOutCounts txs ≠ [] := by
      intro hnil
      rw [hnil] at h
      simp at h
    rw [popularityOf_lookup txs k hne, h]
    have hz : listMaxNat (stockOutCounts txs) ≠ 0 := by omega
    rw [if_neg hz, ← hv]
    exact congrArg some (div_self (by exact_mod_cast hpos.ne'))
  · have hc5 : stockOutCounts exTxs = [("X", 5), ("Y", 5)] := by decide
    have hmax : listMaxNat [(("X" : String), 5), ("Y", 5)] = 5 := by decide
    simp [popularityOf, hc5, hmax]

/-- Witness for C3's maximal-item conjunct at the spec's example: X's raw
count 5 is the maximum and its normalized popularity is exactly 1. -/
theorem claim_C3_witness :
    (stockOutCounts exTxs).lookup "X" = some 5 ∧
    5 = listMaxNat (stockOutCounts exTxs) ∧ 0 < 5 ∧
    (popularityOf exTxs).lookup "X" = some 1 :=
  ⟨by decide, by decide, by decide,
    claim_C3.2.1 exTxs "X" 5 (by decide) (by decide) (by decide)⟩

/-- Counterexample to C3 as stated: a transaction list with one outbound
record of quantity change 0 — the (unique, hence maximal-raw-count) item X is
normalized to 0, not 1, because of the `or 1` guard on a zero maximum. -/
theorem claim_C3_counterexample :
    (∃ tx ∈ txZero, tx.transaction_type = "stock_out") ∧
    (stockOutCounts txZero).lookup "X" = some (listMaxNat (stockOutCounts txZero)) ∧
    (popularityOf txZero).lookup "X" = some 0 ∧
    (popularityOf txZero).lookup "X" ≠ some 1 := by
  have hc : stockOutCounts txZero = [("X", 0)] := by decide
  have hpop : popularityOf txZero = [("X", 0)] := by
    simp [popularityOf, hc, listMaxNat]
  refine ⟨⟨⟨"stock_out", "X", some 0⟩, by decide, rfl⟩, ?_, ?_, ?_⟩
  · rw [hc]; decide
  · rw [hpop]; simp [List.lookup]
  · rw [hpop]; simp [List.lookup]

/-! ### C5, C6, C7: the freshness policy and rebuild failure behavior -/

/-- A catalog payload item for one in-stock book. -/
def payloadB : BookPayload := ⟨"b", "B", ["Bob"], ["Fiction"], 10, "http://x", some avIn⟩

/-- A client whose catalog fetch yields one book and whose transaction fetch
yields the example transactions. -/
def clientOne : Client := ⟨.ok [payloadB], .ok exTxs⟩

/-- A client whose catalog fetch yields an empty catalog. -/
def clientEmpty : Client := ⟨.ok [], .ok []⟩

/-- A client whose catalog fetch raises. -/
def clientFail : Client := ⟨.error "boom", .ok []⟩

/-- C5: with TTL ≤ 0 the staleness check is true on every read, and N
consecutive `ensure_indices` calls with succeeding fetches invoke the catalog
fetch and the transaction fetch N times each. -/
theorem claim_C5 (ttl : Int) (h : ttl ≤ 0) :
    (∀ (now lastBuilt : ℚ), isStale ttl now lastBuilt = true) ∧
    (∀ (c : Client) (bs : List BookPayload) (ts : List Tx) (now : ℚ) (n : ℕ)
        (s : IndexerState),
      c.listBooks = .ok bs → c.listTransactions = .ok ts →
      (iterEnsure c ttl now n s).booksFetches = s.booksFetches + n ∧
      (iterEnsure c ttl now n s).txFetches = s.txFetches + n) := by
  constructor
  · intro now lastBuilt
    simp [isStale, h]
  · intro c bs ts now n s hb ht
    induction n generalizing s with
    | zero => simp [iterEnsure]
    | succ n ih =>
      have hstep : (ensureIndices c ttl now s).1.booksFetches = s.booksFetches + 1 ∧
          (ensureIndices c ttl now s).1.txFetches = s.txFetches + 1 := by
        simp [ensureIndices, isStale, h, rebuild, hb, ht]
      obtain ⟨ihb, iht⟩ := ih ((ensureIndices c ttl now s).1)
      constructor
      · rw [iterEnsure, ihb, hstep.1]; omega
      · rw [iterEnsure, iht, hstep.2]; omega

/-- Witness for C5: TTL = 0 is always stale, and 3 consecutive calls from the
initial state perform 3 catalog fetches and 3 transaction fetches. -/
theorem claim_C5_witness :
    isStale 0 7 100 = true ∧
    (iterEnsure clientOne 0 7 3 IndexerState.initial).booksFetches = 0 + 3 ∧
    (iterEnsure clientOne 0 7 3 IndexerState.initial).txFetches = 0 + 3 :=
  ⟨(claim_C5 0 le_rfl).1 7 100,
    ((claim_C5 0 le_rfl).2 clientOne [payloadB] exTxs 7 3 IndexerState.initial rfl rfl).1,
    ((claim_C5 0 le_rfl).2 clientOne [payloadB] exTxs 7 3 IndexerState.initial rfl rfl).2⟩

/-- C6 (amended): when the TTL has not elapsed AND the current snapshot holds
at least one book, `ensure_indices` returns the snapshot unchanged with no
fetch, and a second immediate call does the same. -/
theorem claim_C6 (c : Client) (ttl : Int) (now : ℚ) (s : IndexerState)
    (h1 : s.indices.book_by_id.isEmpty = false)
    (h2 : isStale ttl now s.indices.last_built_at = false) :
    ensureIndices c ttl now s = (s, none) ∧
    ensureIndices c ttl now (ensureIndices c ttl now s).1 = (s, none) := by
  have key : ensureIndices c ttl now s = (s, none) := by
    simp [ensureIndices, h1, h2]
  exact ⟨key, by rw [key]; exact key⟩

/-- Witness for C6: after one rebuild of a one-book catalog at time 10 with
TTL 60, the snapshot is nonempty and fresh, and `ensure_indices` serves it
without rebuilding. -/
theorem claim_C6_witness :
    (rebuild clientOne 10 IndexerState.initial).1.indices.book_by_id.isEmpty = false ∧
    isStale 60 10 ((rebuild clientOne 10 IndexerState.initial).1.indices.last_built_at) =
      false ∧
    ensureIndices clientOne 60 10 (rebuild clientOne 10 IndexerState.initial).1 =
      ((rebuild clientOne 10 IndexerState.initial).1, none) := by
  have hlb : (rebuild clientOne 10 IndexerState.initial).1.indices.last_built_at = 10 := rfl
  have hstale :
      isStale 60 10 ((rebuild clientOne 10 IndexerState.initial).1.indices.last_built_at) =
        false := by
    rw [hlb]
    norm_num [isStale]
  exact ⟨rfl, hstale,
    (claim_C6 clientOne 60 10 (rebuild clientOne 10 IndexerState.initial).1 rfl hstale).1⟩

/-- Counterexample to C6 as stated: with an empty catalog, the snapshot after
a successful rebuild has an empty `book_by_id`, so the very next call —
although the TTL (60s) has not elapsed — performs a second full rebuild (the
catalog fetch count rises from 1 to 2). -/
theorem claim_C6_counterexample :
    isStale 60 10
        ((ensureIndices clientEmpty 60 10 IndexerState.initial).1.indices.last_built_at) =
      false ∧
    (ensureIndices clientEmpty 60 10 IndexerState.initial).1.booksFetches = 1 ∧
    (ensureIndices clientEmpty 60 10
        (ensureIndices clientEmpty 60 10 IndexerState.initial).1).1.booksFetches = 2 := by
  have hlb :
      (ensureIndices clientEmpty 60 10 IndexerState.initial).1.indices.last_built_at = 10 :=
    rfl
  refine ⟨?_, rfl, rfl⟩
  rw [hlb]
  norm_num [isStale]

/-- C7: if the catalog fetch fails, or the catalog fetch succeeds and the
transaction fetch fails, a triggered rebuild surfaces the error through
`ensure_indices` and the previously built snapshot is completely unchanged. -/
theorem claim_C7 (c : Client) (ttl : Int) (now : ℚ) (s : IndexerState) (e : String)
    (hstale : s.indices.book_by_id.isEmpty = true ∨
      isStale ttl now s.indices.last_built_at = true)
    (herr : c.listBooks = .error e ∨
      ∃ bs, c.listBooks = .ok bs ∧ c.listTransactions = .error e) :
    (ensureIndices c ttl now s).2 = some e ∧
    (ensureIndices c ttl now s).1.indices = s.indices := by
  have hcond :
      (s.indices.book_by_id.isEmpty || isStale ttl now s.indices.last_built_at) = true := by
    rcases hstale with h | h <;> simp [h]
  rcases herr with h | ⟨bs, hb, ht⟩
  · simp [ensureIndices, hcond, rebuild, h]
  · simp [ensureIndices, hcond, rebuild, hb, ht]

/-- Witness for C7: from the initial (empty, hence stale) state, a client
whose catalog fetch raises propagates the error and leaves the initial
snapshot untouched. -/
theorem claim_C7_witness :
    (IndexerState.initial.indices.book_by_id.isEmpty = true ∨
      isStale 0 0 IndexerState.initial.indices.last_built_at = true) ∧
    (clientFail.listBooks = .error "boom" ∨
      ∃ bs, clientFail.listBooks = .ok bs ∧ clientFail.listTransactions = .error "boom") ∧
    (ensureIndices clientFail 0 0 IndexerState.initial).2 = some "boom" ∧
    (ensureIndices clientFail 0 0 IndexerState.initial).1.indices =
      IndexerState.initial.indices :=
  ⟨Or.inl rfl, Or.inl rfl,
    (claim_C7 clientFail 0 0 IndexerState.initial "boom" (Or.inl rfl) (Or.inl rfl)).1,
    (claim_C7 clientFail 0 0 IndexerState.initial "boom" (Or.inl rfl) (Or.inl rfl)).2⟩

/-! ### C9: total, type-filtered popularity aggregation -/

/-- Inserting a binding makes it the one found by lookup at its key. -/
theorem lookup_dinsert_self {α : Type} (m : List (String × α)) (k : String) (v : α) :
    (dinsert m k v).lookup k = some v := by
  induction m with
  | nil => simp [dinsert, List.lookup]
  | cons p rest ih =>
    rcases p with ⟨k', v'⟩
    by_cases h : k' = k
    · subst h
      simp [dinsert, List.lookup]
    · have h1 : (k' == k) = false := beq_eq_false_iff_ne.mpr h
      have h2 : (k == k') = false := beq_eq_false_iff_ne.mpr (fun hkk => h hkk.symm)
      simp [dinsert, h1, List.lookup, h2, ih]

/-- Folding the counting step ignores every record the step itself skips. -/
theorem foldl_soStep_filter (txs : List Tx) (acc : List (String × ℕ)) :
    txs.foldl soStep acc =
      (txs.filter (fun tx => tx.transaction_type == "stock_out")).foldl soStep acc := by
  induction txs generalizing acc with
  | nil => rfl
  | cons tx rest ih =>
    by_cases h : tx.transaction_type == "stock_out"
    · have hf : (tx :: rest).filter (fun tx => tx.transaction_type == "stock_out") =
          tx :: rest.filter (fun tx => tx.transaction_type == "stock_out") := by
        simp [List.filter_cons, h]
      rw [List.foldl_cons, hf, List.foldl_cons, ih]
    · have hf : (tx :: rest).filter (fun tx => tx.transaction_type == "stock_out") =
          rest.filter (fun tx => tx.transaction_type == "stock_out") := by
        simp [List.filter_cons, h]
      have hs : soStep acc tx = acc := by simp [soStep, h]
      rw [List.foldl_cons, hf, hs, ih]

/-- C9: the popularity aggregation is a total function whose result depends
only on the `stock_out` records (non-outbound records never contribute), and
an outbound record with a missing `quantity_change` contributes exactly a
unit magnitude. -/
theorem claim_C9 :
    (∀ txs : List Tx,
      stockOutCounts txs =
        stockOutCounts (txs.filter (fun tx => tx.transaction_type == "stock_out"))) ∧
    (∀ (txs : List Tx) (tx : Tx),
      tx.transaction_type = "stock_out" → tx.quantity_change = none →
      (stockOutCounts (txs ++ [tx])).lookup tx.book_id =
        some (((stockOutCounts txs).lookup tx.book_id).getD 0 + 1)) := by
  constructor
  · intro txs
    rw [stockOutCounts, stockOutCounts, foldl_soStep_filter]
  · intro txs tx h hq
    rw [stockOutCounts, List.foldl_append]
    show (soStep (stockOutCounts txs) tx).lookup tx.book_id = _
    rw [soStep, if_pos (by simp [h]), hq]
    simp [lookup_dinsert_self]

/-- Witness for C9's unit-magnitude conjunct: appending an outbound record for
X with no quantity change raises X's raw count by exactly 1. -/
theorem claim_C9_witness :
    (stockOutCounts (exTxs ++ [⟨"stock_out", "X", none⟩])).lookup "X" =
      some (((stockOutCounts exTxs).lookup "X").getD 0 + 1) :=
  claim_C9.2 exTxs ⟨"stock_out", "X", none⟩ rfl rfl

/-! ### C10: the health endpoint's staleness report -/

/-- C10 (amended): the health endpoint reports the four index entry counts
and the snapshot age in whole seconds (the truncation of `now - last_built`
when a snapshot has been built, `None` when `last_built` is the falsy 0.0),
and its stale flag is true exactly when the TTL is positive AND the snapshot
age exceeds the TTL; for positive TTLs this agrees with the freshness
policy's staleness check (for TTL ≤ 0 the endpoint reports fresh while the
policy is always stale — see the counterexample). -/
theorem claim_C10 :
    (∀ idx : CatalogIndices,
      healthIndicesOf idx =
        ⟨idx.book_by_id.length, idx.genre_to_book_ids.length,
          idx.author_to_book_ids.length, idx.popularity.length⟩) ∧
    (∀ (ttl : Int) (now lastBuilt : ℚ),
      healthStale ttl now lastBuilt = true ↔ 0 < ttl ∧ (ttl : ℚ) < now - lastBuilt) ∧
    (∀ (ttl : Int) (now lastBuilt : ℚ), 0 < ttl →
      healthStale ttl now lastBuilt = isStale ttl now lastBuilt) ∧
    (∀ (ttl : Int) (now lastBuilt : ℚ), lastBuilt = 0 →
      (healthCacheOf ttl now lastBuilt).age_seconds = none) ∧
    (∀ (ttl : Int) (now lastBuilt : ℚ), lastBuilt ≠ 0 → 0 ≤ now - lastBuilt →
      ∃ a : Int, (healthCacheOf ttl now lastBuilt).age_seconds = some a ∧
        (a : ℚ) ≤ now - lastBuilt ∧ now - lastBuilt < (a : ℚ) + 1) ∧
    (∀ (ttl : Int) (now lastBuilt : ℚ),
      (healthCacheOf ttl now lastBuilt).stale = healthStale ttl now lastBuilt ∧
      (healthCacheOf ttl now lastBuilt).ttl_seconds = ttl) := by
  refine ⟨fun idx => rfl, ?_, ?_, ?_, ?_, fun ttl now lastBuilt => ⟨rfl, rfl⟩⟩
  · intro ttl now lastBuilt
    simp [healthStale, gt_iff_lt]
  · intro ttl now lastBuilt h
    have hn : ¬(ttl ≤ 0) := not_le.mpr h
    simp [healthStale, isStale, hn, h]
  · intro ttl now lastBuilt h
    simp [healthCacheOf, h]
  · intro ttl now lastBuilt h1 h2
    refine ⟨ratTrunc (now - lastBuilt), by simp [healthCacheOf, h1], ?_, ?_⟩
    · rw [ratTrunc, if_neg (not_lt.mpr h2)]
      exact Int.floor_le _
    · rw [ratTrunc, if_neg (not_lt.mpr h2)]
      exact Int.lt_floor_add_one _

/-- Witness for C10: the agreement conjunct at a positive TTL, the reported
age `None` for a never-built snapshot, and the reported whole-second age for
a snapshot built at time 40 read at time 100. -/
theorem claim_C10_witness :
    ((0 : Int) < 60 ∧ healthStale 60 100 0 = isStale 60 100 0) ∧
    (healthCacheOf 60 100 0).age_seconds = none ∧
    ((40 : ℚ) ≠ 0 ∧ (0 : ℚ) ≤ 100 - 40 ∧
      ∃ a : Int, (healthCacheOf 60 100 40).age_seconds = some a ∧
        (a : ℚ) ≤ 100 - 40 ∧ (100 : ℚ) - 40 < (a : ℚ) + 1) :=
  ⟨⟨by norm_num, claim_C10.2.2.1 60 100 0 (by norm_num)⟩,
    claim_C10.2.2.2.1 60 100 0 rfl,
    by norm_num, by norm_num,
    claim_C10.2.2.2.2.1 60 100 40 (by norm_num) (by norm_num)⟩

/-- Counterexample to C10 as stated: with TTL = 0 and snapshot age 100 the
age exceeds the TTL (and the claim says TTL ≤ 0 means every read is stale),
yet the health endpoint reports fresh; the freshness policy's own check is
stale at the same inputs. -/
theorem claim_C10_counterexample :
    healthStale 0 100 0 = false ∧
    ((0 : Int) : ℚ) < (100 : ℚ) - 0 ∧
    isStale 0 100 0 = true := by
  refine ⟨?_, by norm_num, by simp [isStale]⟩
  simp [healthStale]

/-! ### C4: endpoint output properties (positivity, ordering, truncation) -/

/-- A surviving scored candidate has a strictly positive score (candidates
with score ≤ 0 are dropped). -/
theorem scoreCandidate_pos {cfg : ScoreConfig} {seed_books : List BookLite}
    {idx : CatalogIndices} {cid : String} {r : RecommendationItem}
    (h : scoreCandidate cfg seed_books idx cid = some r) : 0 < r.score := by
  rcases hb : idx.book_by_id.lookup cid with _ | b
  · simp [scoreCandidate, hb] at h
  · simp only [scoreCandidate, hb] at h
    by_cases hs : (score_simple cfg seed_books b idx.popularity).1 ≤ 0
    · rw [if_pos hs] at h
      simp at h
    · rw [if_neg hs] at h
      simp only [Option.some.injEq] at h
      subst h
      exact not_le.mp hs

/-- The ranked output is sorted by descending score. -/
theorem scoreAndRank_sorted (cfg : ScoreConfig) (seed_books : List BookLite)
    (idx : CatalogIndices) (cids : List String) (limit : ℕ) :
    List.Sorted scoreGe (scoreAndRank cfg seed_books idx cids limit) :=
  List.Pairwise.sublist (List.take_sublist _ _) (List.sorted_insertionSort scoreGe _)

/-- The ranked output never exceeds the limit. -/
theorem scoreAndRank_length (cfg : ScoreConfig) (seed_books : List BookLite)
    (idx : CatalogIndices) (cids : List String) (limit : ℕ) :
    (scoreAndRank cfg seed_books idx cids limit).length ≤ limit :=
  List.length_take_le _ _

/-- Every item in the ranked output has a strictly positive score. -/
theorem scoreAndRank_pos {cfg : ScoreConfig} {seed_books : List BookLite}
    {idx : CatalogIndices} {cids : List String} {limit : ℕ} {r : RecommendationItem}
    (h : r ∈ scoreAndRank cfg seed_books idx cids limit) : 0 < r.score := by
  have h1 : r ∈ (cids.filterMap (scoreCandidate cfg seed_books idx)).insertionSort scoreGe :=
    (List.take_sublist _ _).subset h
  have h2 : r ∈ cids.filterMap (scoreCandidate cfg seed_books idx) :=
    (List.perm_insertionSort scoreGe _).mem_iff.mp h1
  rcases List.mem_filterMap.mp h2 with ⟨cid, _, hc⟩
  exact scoreCandidate_pos hc

/-- A trending-fallback item's score is the popularity of its id. -/
theorem trendingItem_score {idx : CatalogIndices} {i : String} {r : RecommendationItem}
    (h : (idx.book_by_id.lookup i).bind (fun b =>
      if b.availability.in_stock then
        some (buildRecommendationItem b (popOf idx i) [("popularity", popOf idx i)])
      else none) = some r) : r.score = popOf idx i := by
  rcases Option.bind_eq_some.mp h with ⟨b, _, hb⟩
  by_cases hs : b.availability.in_stock
  · rw [if_pos hs] at hb
    simp only [Option.some.injEq] at hb
    rw [← hb]
    rfl
  · rw [if_neg hs] at hb
    exact absurd hb (by simp)

/-- The trending fallback is sorted by descending score (= popularity). -/
theorem trendingFallback_sorted (idx : CatalogIndices) (limit : ℕ) :
    List.Sorted scoreGe (trendingFallback idx limit) := by
  have hs : List.Pairwise (popGe idx)
      (((idx.book_by_id.map Prod.fst).insertionSort (popGe idx)).take limit) :=
    List.Pairwise.sublist (List.take_sublist _ _)
      (List.sorted_insertionSort (popGe idx) _)
  unfold trendingFallback
  refine List.pairwise_filterMap.mpr (hs.imp ?_)
  intro i j hij
  intro r hr r' hr'
  have e1 : r.score = popOf idx i := trendingItem_score hr
  have e2 : r'.score = popOf idx j := trendingItem_score hr'
  show r'.score ≤ r.score
  rw [e1, e2]
  exact hij

/-- The trending fallback never exceeds the limit. -/
theorem trendingFallback_length (idx : CatalogIndices) (limit : ℕ) :
    (trendingFallback idx limit).length ≤ limit :=
  le_trans (List.length_filterMap_le _ _) (List.length_take_le _ _)

/-- C4 (amended): the similar endpoint returns only strictly-positive-score
candidates, sorted by descending score, truncated to the limit; the
personalized endpoint's output is always sorted descending and truncated to
the limit, and every item's score is strictly positive whenever the request
resolves seed books or feature candidates (i.e. except in the trending
fallback, which may carry score 0 — see the counterexample). -/
theorem claim_C4 :
    (∀ (cfg : ScoreConfig) (idx : CatalogIndices) (book_id : String) (limit : ℕ)
        (out : List RecommendationItem),
      getSimilar cfg idx book_id limit = some out →
      (∀ r ∈ out, 0 < r.score) ∧ List.Sorted scoreGe out ∧ out.length ≤ limit) ∧
    (∀ (cfg : ScoreConfig) (idx : CatalogIndices) (p : PersonalizedRequest),
      List.Sorted scoreGe (getPersonalized cfg idx p) ∧
      (getPersonalized cfg idx p).length ≤ p.limit.getD 10) ∧
    (∀ (cfg : ScoreConfig) (idx : CatalogIndices) (p : PersonalizedRequest),
      (personalSeedBooks idx p ≠ [] ∨
        featureCandidates idx p.seed_genres p.seed_authors ≠ []) →
      ∀ r ∈ getPersonalized cfg idx p, 0 < r.score) := by
  refine ⟨?_, ?_, ?_⟩
  · intro cfg idx book_id limit out h
    rcases hb : idx.book_by_id.lookup book_id with _ | seed
    · simp [getSimilar, hb] at h
    · simp only [getSimilar, hb, Option.some.injEq] at h
      subst h
      exact ⟨fun r hr => scoreAndRank_pos hr, scoreAndRank_sorted cfg [seed] idx _ limit,
        scoreAndRank_length cfg [seed] idx _ limit⟩
  · intro cfg idx p
    unfold getPersonalized
    split_ifs with h1 h2
    · exact ⟨trendingFallback_sorted idx _, trendingFallback_length idx _⟩
    · exact ⟨scoreAndRank_sorted _ _ _ _ _, scoreAndRank_length _ _ _ _ _⟩
    · exact ⟨scoreAndRank_sorted _ _ _ _ _, scoreAndRank_length _ _ _ _ _⟩
  · intro cfg idx p hne r hr
    unfold getPersonalized at hr
    by_cases h1 : (personalSeedBooks idx p).isEmpty
    · rw [if_pos h1] at hr
      have hfc : ¬((featureCandidates idx p.seed_genres p.seed_authors).isEmpty = true) := by
        rcases hne with h | h
        · exact absurd (List.isEmpty_iff.mp h1) h
        · simpa [List.isEmpty_iff] using h
      rw [if_neg hfc] at hr
      exact scoreAndRank_pos hr
    · rw [if_neg h1] at hr
      exact scoreAndRank_pos hr

/-- One-book catalog index (in-stock book `b`, empty popularity map). -/
def idxOneB : CatalogIndices :=
  { book_by_id := [("b", candB)], genre_to_book_ids := [("Fiction", ["b"])],
    author_to_book_ids := [("Bob", ["b"])], popularity := [], last_built_at := 0 }

/-- A personalized request with no seeds and no feature attributes. -/
def emptyReq : PersonalizedRequest := ⟨[], [], [], [], [], none⟩

/-- Counterexample to C4 as stated: a personalized request with no resolvable
seeds and no feature candidates falls back to trending, which returns the
in-stock book `b` with score 0 (its popularity), violating "only candidates
whose score is strictly greater than 0". -/
theorem claim_C4_counterexample :
    (getPersonalized defaultScoreConfig idxOneB emptyReq).map (fun r => r.score) = [0] ∧
    (getPersonalized defaultScoreConfig idxOneB emptyReq).length = 1 :=
  ⟨rfl, rfl⟩

/-- A catalog payload item for a second in-stock book sharing a genre with
`payloadB`. -/
def payloadA : BookPayload :=
  ⟨"a", "A", ["Alice"], ["Fiction", "Mystery"], 10, "http://x", some avIn⟩

/-- A two-book index built by the rebuild pipeline. -/
def idx2 : CatalogIndices := buildIndices [payloadA, payloadB] [] 10

/-- A personalized request seeded with book `a`. -/
def reqA : PersonalizedRequest := ⟨["a"], [], [], [], [], none⟩

/-- The similar-endpoint output for seed `a` in the two-book index. -/
def simOut : List RecommendationItem :=
  scoreAndRank defaultScoreConfig [toBookLite payloadA] idx2
    (candidateIdsFromSeeds idx2 [toBookLite payloadA]) 10

/-- Witness for C4 at the two-book index: the similar endpoint resolves seed
`a`, and the personalized request seeded with `a` resolves seed books, so
both hypotheses are discharged concretely. -/
theorem claim_C4_witness :
    getSimilar defaultScoreConfig idx2 "a" 10 = some simOut ∧
    ((∀ r ∈ simOut, 0 < r.score) ∧ List.Sorted scoreGe simOut ∧ simOut.length ≤ 10) ∧
    (personalSeedBooks idx2 reqA ≠ [] ∨
      featureCandidates idx2 reqA.seed_genres reqA.seed_authors ≠ []) ∧
    (∀ r ∈ getPersonalized defaultScoreConfig idx2 reqA, 0 < r.score) := by
  have hseed : personalSeedBooks idx2 reqA = [toBookLite payloadA] := rfl
  have hne : personalSeedBooks idx2 reqA ≠ [] := by
    rw [hseed]
    exact List.cons_ne_nil _ _
  have hsim : getSimilar defaultScoreConfig idx2 "a" 10 = some simOut := rfl
  exact ⟨hsim, claim_C4.1 defaultScoreConfig idx2 "a" 10 simOut hsim, Or.inl hne,
    claim_C4.2.2 defaultScoreConfig idx2 reqA (Or.inl hne)⟩

/-! ### C8: the seed-attribute-mode candidate set -/

/-- Membership after a Python-set insertion. -/
theorem mem_sadd {s : List String} {x y : String} : y ∈ sadd s x ↔ y ∈ s ∨ y = x := by
  by_cases h : x ∈ s
  · simp only [sadd, if_pos h]
    constructor
    · exact Or.inl
    · rintro (h' | rfl)
      · exact h'
      · exact h
  · simp [sadd, if_neg h]

/-- Membership in a Python-set union. -/
theorem mem_unionAdd (acc s : List String) (y : String) :
    y ∈ unionAdd acc s ↔ y ∈ acc ∨ y ∈ s := by
  induction s generalizing acc with
  | nil => simp [unionAdd]
  | cons x rest ih =>
    have hstep : unionAdd acc (x :: rest) = unionAdd (sadd acc x) rest := rfl
    rw [hstep, ih, mem_sadd, List.mem_cons]
    tauto

/-- Membership in a fold that unions the images of a list of keys. -/
theorem mem_foldl_unionAdd {β : Type} (f : β → List String) (l : List β) (acc : List String)
    (y : String) :
    y ∈ l.foldl (fun a k => unionAdd a (f k)) acc ↔ y ∈ acc ∨ ∃ k ∈ l, y ∈ f k := by
  induction l generalizing acc with
  | nil => simp
  | cons k rest ih =>
    rw [List.foldl_cons, ih, mem_unionAdd]
    constructor
    · rintro ((h | h) | ⟨k', hk', hy⟩)
      · exact Or.inl h
      · exact Or.inr ⟨k, List.mem_cons_self k rest, h⟩
      · exact Or.inr ⟨k', List.mem_cons_of_mem _ hk', hy⟩
    · rintro (h | ⟨k', hk', hy⟩)
      · exact Or.inl (Or.inl h)
      · rcases List.mem_cons.mp hk' with rfl | h'
        · exact Or.inl (Or.inr hy)
        · exact Or.inr ⟨k', h', hy⟩

/-- Membership in the ids collected for a single seed book. -/
theorem mem_collectIds (idx : CatalogIndices) (sb : BookLite) (acc : List String)
    (y : String) :
    y ∈ collectIds idx sb acc ↔ y ∈ acc ∨
      (∃ g ∈ sb.genres, y ∈ (idx.genre_to_book_ids.lookup g).getD []) ∨
      (∃ a ∈ sb.authors, y ∈ (idx.author_to_book_ids.lookup a).getD []) := by
  unfold collectIds
  rw [mem_foldl_unionAdd, mem_foldl_unionAdd]
  exact or_assoc

/-- Membership in the ids collected across all seed books. -/
theorem mem_seedFold (idx : CatalogIndices) (seed_books : List BookLite) (acc : List String)
    (y : String) :
    y ∈ seed_books.foldl (fun acc sb => collectIds idx sb acc) acc ↔ y ∈ acc ∨
      ∃ sb ∈ seed_books,
        (∃ g ∈ sb.genres, y ∈ (idx.genre_to_book_ids.lookup g).getD []) ∨
        (∃ a ∈ sb.authors, y ∈ (idx.author_to_book_ids.lookup a).getD []) := by
  induction seed_books generalizing acc with
  | nil => simp
  | cons sb rest ih =>
    rw [List.foldl_cons, ih, mem_collectIds]
    constructor
    · rintro ((h | h) | ⟨sb', hsb', hy⟩)
      · exact Or.inl h
      · exact Or.inr ⟨sb, List.mem_cons_self sb rest, h⟩
      · exact Or.inr ⟨sb', List.mem_cons_of_mem _ hsb', hy⟩
    · rintro (h | ⟨sb', hsb', hy⟩)
      · exact Or.inl (Or.inl h)
      · rcases List.mem_cons.mp hsb' with rfl | h'
        · exact Or.inl (Or.inr hy)
        · exact Or.inr ⟨sb', h', hy⟩

/-- C8 (amended): in seed-attribute mode, once the nonempty feature-candidate
union has been truncated to (up to) three pseudo-seed books, the candidate
set contains exactly the ids registered under some pseudo-seed's genre or
author, with the pseudo-seed ids themselves subtracted. -/
theorem claim_C8 (idx : CatalogIndices) (genres authors : List String) (i : String) :
    i ∈ candidateIdsFromSeeds idx (pseudoSeedBooks idx genres authors) ↔
      (∃ sb ∈ pseudoSeedBooks idx genres authors,
        (∃ g ∈ sb.genres, i ∈ (idx.genre_to_book_ids.lookup g).getD []) ∨
        (∃ a ∈ sb.authors, i ∈ (idx.author_to_book_ids.lookup a).getD [])) ∧
      i ∉ (pseudoSeedBooks idx genres authors).map (fun b => b.id) := by
  unfold candidateIdsFromSeeds
  rw [List.mem_filter, mem_seedFold]
  simp only [List.not_mem_nil, false_or, decide_eq_true_eq]

/-- A personalized request supplying only the genre name Fiction. -/
def reqG : PersonalizedRequest := ⟨[], [], [], ["Fiction"], [], none⟩

/-- Counterexample to C8 as stated: for seed genre Fiction the attribute
union is {b}, but the code resolves b as a pseudo-seed and subtracts its id,
so the final candidate set — and the endpoint's output — is empty rather
than the union. -/
theorem claim_C8_counterexample :
    featureCandidates idxOneB ["Fiction"] [] = ["b"] ∧
    pseudoSeedBooks idxOneB ["Fiction"] [] = [candB] ∧
    candidateIdsFromSeeds idxOneB (pseudoSeedBooks idxOneB ["Fiction"] []) = [] ∧
    getPersonalized defaultScoreConfig idxOneB reqG = [] :=
  ⟨rfl, rfl, rfl, rfl⟩

end BookVerse
